import Mathlib

/-!
Shallow embedding of the imagen-printer repository (JS) in Lean 4.

Source files modelled:
* `src/modules/imageProcessor.js` — `ImageProcessor.divideImage`,
  `ImageProcessor.getGridDimensions`;
* `src/utils/constants.js` — `PAPER_SIZES`, `DIVISION_PATTERNS`,
  `DEFAULT_SETTINGS`, `convertMmToPx`;
* `src/modules/pdfGenerator.js` — `PDFGenerator.generatePDF`,
  `addImageToPage`, `addCuttingGuides`, `addPageNumber`, `addPartInfo`.

Machine numbers: the partitioner works on integer pixel counts, modelled
with `Nat` (JS `Math.floor(a/b)` on nonnegative ints is `Nat` division);
the PDF layout works on JS doubles used only through `+ - * / min`,
modelled with `ℚ`.
-/

namespace ImagenPrinter

/-- Grid dimensions as returned by `ImageProcessor.getGridDimensions`:
`{rows, cols, paperSize}`. -/
structure GridDims where
  rows : Nat
  cols : Nat
  paperSize : String
deriving Repr, DecidableEq

/-- `ImageProcessor.getGridDimensions(pattern)`
(src/modules/imageProcessor.js lines 111-124): lookup in the *local*
`patterns` object, falling back to `patterns['A4_2x2']` when the key is
absent.  Note the local object has only the seven keys below — it has no
`A4_2x2_H` or `A3_2x2_H` entry. -/
def getGridDimensions (pattern : String) : GridDims :=
  if pattern = "A4_2x1" then ⟨2, 1, "A4"⟩
  else if pattern = "A4_1x2" then ⟨1, 2, "A4"⟩
  else if pattern = "A4_2x2" then ⟨2, 2, "A4"⟩
  else if pattern = "A3_SINGLE" then ⟨1, 1, "A3"⟩
  else if pattern = "A3_2x1" then ⟨2, 1, "A3"⟩
  else if pattern = "A3_1x2" then ⟨1, 2, "A3"⟩
  else if pattern = "A3_2x2" then ⟨2, 2, "A3"⟩
  else ⟨2, 2, "A4"⟩

/-- A loaded source image: only its pixel dimensions matter to the
partitioner. -/
structure SourceImage where
  width : Nat
  height : Nat
deriving Repr, DecidableEq

/-- One tile descriptor (`partInfo` object built inside
`divideImage`, src/modules/imageProcessor.js lines 79-89).  Pixel data is
not modelled; the source rectangle `(sourceX, sourceY, width, height)` is
kept instead (lines 68-76). -/
structure PartInfo where
  row : Nat
  col : Nat
  width : Nat
  height : Nat
  sourceX : Nat
  sourceY : Nat
  paperSize : String
  dpi : Nat
  partNumber : Nat
  totalParts : Nat
deriving Repr, DecidableEq

/-- Body of the double loop of `divideImage`
(src/modules/imageProcessor.js lines 62-101): row-major iteration,
`partWidth = floor(W/cols)`, `partHeight = floor(H/rows)`,
`sourceX = col*partWidth`, `sourceY = row*partHeight`,
`partNumber = row*cols + col + 1`, `totalParts = rows*cols`. -/
def buildParts (W H : Nat) (pattern : String) (dpi : Nat) : List PartInfo :=
  let g := getGridDimensions pattern
  let partWidth := W / g.cols
  let partHeight := H / g.rows
  (List.range g.rows).flatMap fun row =>
    (List.range g.cols).map fun col =>
      { row := row
        col := col
        width := partWidth
        height := partHeight
        sourceX := col * partWidth
        sourceY := row * partHeight
        paperSize := g.paperSize
        dpi := dpi
        partNumber := row * g.cols + col + 1
        totalParts := g.rows * g.cols }

/-- `ImageProcessor.divideImage(pattern, dpi)`
(src/modules/imageProcessor.js lines 42-104): throws
`'No hay imagen cargada'` when no image is loaded, otherwise returns the
row-major list of tile descriptors. -/
def divideImage (img : Option SourceImage) (pattern : String) (dpi : Nat) :
    Except String (List PartInfo) :=
  match img with
  | none => .error "No hay imagen cargada"
  | some im => .ok (buildParts im.width im.height pattern dpi)

/-! Basic facts about the grid table. -/

/-- Every grid the partitioner can produce has positive rows and cols. -/
theorem getGridDimensions_pos (pattern : String) :
    0 < (getGridDimensions pattern).rows ∧ 0 < (getGridDimensions pattern).cols := by
  unfold getGridDimensions
  repeat' split
  all_goals decide

/-- Flattening a row-major double loop: binding row blocks of length `c`
equals a single map over `List.range (r*c)` indexed by `k ↦ (k/c, k%c)`. -/
theorem range_bind_eq_range_mul {α : Type} (c : Nat) (hc : 0 < c)
    (g : Nat → Nat → α) (r : Nat) :
    ((List.range r).flatMap fun row => (List.range c).map (g row)) =
      (List.range (r * c)).map fun k => g (k / c) (k % c) := by
  induction r with
  | zero => simp
  | succ n ih =>
    rw [List.range_succ, List.flatMap_append, ih, Nat.succ_mul, List.range_add,
      List.map_append]
    simp only [List.flatMap_cons, List.flatMap_nil, List.append_nil, List.map_map]
    congr 1
    apply List.map_congr_left
    intro j hj
    have hjc : j < c := List.mem_range.mp hj
    have h1 : (n * c + j) / c = n := by
      rw [Nat.add_comm, Nat.add_mul_div_right _ _ hc, Nat.div_eq_of_lt hjc,
        Nat.zero_add]
    have h2 : (n * c + j) % c = j := by
      rw [Nat.add_comm, Nat.add_mul_mod_self_right, Nat.mod_eq_of_lt hjc]
    simp [Function.comp, h1, h2]

/-- Canonical form of `buildParts`: a single map over the flat index
`k = row*cols + col`. -/
theorem buildParts_eq (W H : Nat) (pattern : String) (dpi : Nat) :
    buildParts W H pattern dpi =
      (List.range ((getGridDimensions pattern).rows * (getGridDimensions pattern).cols)).map
        fun k =>
          { row := k / (getGridDimensions pattern).cols
            col := k % (getGridDimensions pattern).cols
            width := W / (getGridDimensions pattern).cols
            height := H / (getGridDimensions pattern).rows
            sourceX := k % (getGridDimensions pattern).cols * (W / (getGridDimensions pattern).cols)
            sourceY := k / (getGridDimensions pattern).cols * (H / (getGridDimensions pattern).rows)
            paperSize := (getGridDimensions pattern).paperSize
            dpi := dpi
            partNumber := k / (getGridDimensions pattern).cols * (getGridDimensions pattern).cols
              + k % (getGridDimensions pattern).cols + 1
            totalParts := (getGridDimensions pattern).rows * (getGridDimensions pattern).cols } := by
  have hc := (getGridDimensions_pos pattern).2
  simp only [buildParts]
  exact range_bind_eq_range_mul _ hc _ _

/-- C1: `divideImage` returns exactly `rows*cols` descriptors in row-major
order; `partNumber = row*cols + col + 1`, the `partNumber`s are the
contiguous sequence `1..rows*cols` in emission order, and every descriptor
has `totalParts = rows*cols`. -/
theorem divideImage_row_major (img : SourceImage) (pattern : String) (dpi : Nat)
    (parts : List PartInfo) (h : divideImage (some img) pattern dpi = .ok parts) :
    parts.length = (getGridDimensions pattern).rows * (getGridDimensions pattern).cols ∧
    parts.map (fun p => (p.row, p.col)) =
      (List.range ((getGridDimensions pattern).rows * (getGridDimensions pattern).cols)).map
        (fun k => (k / (getGridDimensions pattern).cols, k % (getGridDimensions pattern).cols)) ∧
    parts.map PartInfo.partNumber =
      parts.map (fun p => p.row * (getGridDimensions pattern).cols + p.col + 1) ∧
    parts.map PartInfo.partNumber =
      (List.range ((getGridDimensions pattern).rows * (getGridDimensions pattern).cols)).map
        (fun k => k + 1) ∧
    parts.map PartInfo.totalParts =
      List.replicate ((getGridDimensions pattern).rows * (getGridDimensions pattern).cols)
        ((getGridDimensions pattern).rows * (getGridDimensions pattern).cols) := by
  have hparts : parts = buildParts img.width img.height pattern dpi := by
    simpa [divideImage] using h.symm
  subst hparts
  rw [buildParts_eq]
  refine ⟨by simp, by simp [List.map_map, Function.comp], by simp [List.map_map, Function.comp], ?_, ?_⟩
  · simp only [List.map_map]
    apply List.map_congr_left
    intro k _
    have h1 : k / (getGridDimensions pattern).cols * (getGridDimensions pattern).cols
        + k % (getGridDimensions pattern).cols = k := Nat.div_add_mod' k _
    simp only [Function.comp]
    omega
  · simp [List.map_map, Function.comp, List.eq_replicate_iff]

/-- Witness for C1 at a 1000×700 image and the `A4_2x2` pattern. -/
theorem divideImage_row_major_witness :
    (buildParts 1000 700 "A4_2x2" 300).length = 4 ∧
    (buildParts 1000 700 "A4_2x2" 300).map PartInfo.partNumber = [1, 2, 3, 4] := by
  have h := divideImage_row_major ⟨1000, 700⟩ "A4_2x2" 300
    (buildParts 1000 700 "A4_2x2" 300) rfl
  exact ⟨h.1.trans (by decide), (h.2.2.2.1).trans (by decide)⟩

/-- C2: every descriptor has `widthPx = floor(W / cols)` and
`heightPx = floor(H / rows)`; all tiles have the same size (remainder
pixels dropped, never redistributed). -/
theorem divideImage_tile_size (img : SourceImage) (pattern : String) (dpi : Nat)
    (parts : List PartInfo) (h : divideImage (some img) pattern dpi = .ok parts) :
    parts.map (fun p => (p.width, p.height)) =
      List.replicate ((getGridDimensions pattern).rows * (getGridDimensions pattern).cols)
        (img.width / (getGridDimensions pattern).cols,
          img.height / (getGridDimensions pattern).rows) := by
  have hparts : parts = buildParts img.width img.height pattern dpi := by
    simpa [divideImage] using h.symm
  subst hparts
  rw [buildParts_eq]
  simp [List.map_map, Function.comp, List.eq_replicate_iff]

/-- Witness for C2: a 1000×700 source with `A4_2x2` (rows=2, cols=2)
yields four 500×350 tiles. -/
theorem divideImage_tile_size_witness :
    (buildParts 1000 700 "A4_2x2" 300).map (fun p => (p.width, p.height)) =
      List.replicate 4 (500, 350) := by
  have h := divideImage_tile_size ⟨1000, 700⟩ "A4_2x2" 300
    (buildParts 1000 700 "A4_2x2" 300) rfl
  exact h.trans (by decide)

/-- The source rectangle a tile is extracted from
(`ctx.drawImage(original, sourceX, sourceY, partWidth, partHeight, ...)`,
src/modules/imageProcessor.js lines 72-76), as a set of pixel
coordinates. -/
def region (p : PartInfo) : Set (Nat × Nat) :=
  {q | p.sourceX ≤ q.1 ∧ q.1 < p.sourceX + p.width ∧
       p.sourceY ≤ q.2 ∧ q.2 < p.sourceY + p.height}

/-- A coordinate lies in at most one length-`w` slot. -/
theorem slot_eq {w a b x : Nat} (ha1 : a * w ≤ x) (ha2 : x < a * w + w)
    (hb1 : b * w ≤ x) (hb2 : x < b * w + w) : a = b := by
  by_contra hne
  rcases Nat.lt_or_ge a b with hab | hab
  · have hs : (a + 1) * w ≤ b * w :=
      Nat.mul_le_mul_right w (Nat.succ_le_of_lt hab)
    rw [Nat.succ_mul] at hs
    omega
  · have hab' : b < a := Nat.lt_of_le_of_ne hab fun e => hne e.symm
    have hs : (b + 1) * w ≤ a * w :=
      Nat.mul_le_mul_right w (Nat.succ_le_of_lt hab')
    rw [Nat.succ_mul] at hs
    omega

/-- Any coordinate below `c*w` lies in its own slot `x/w`. -/
theorem mem_own_slot {w c x : Nat} (hx : x < c * w) :
    x / w < c ∧ x / w * w ≤ x ∧ x < x / w * w + w := by
  have hw : 0 < w := by
    rcases Nat.eq_zero_or_pos w with hw | hw
    · subst hw; omega
    · exact hw
  refine ⟨(Nat.div_lt_iff_lt_mul hw).mpr hx, Nat.div_mul_le_self x w, ?_⟩
  have h1 : x / w * w + x % w = x := Nat.div_add_mod' x w
  have h2 : x % w < w := Nat.mod_lt x hw
  omega

/-- C10: the tile at `(row, col)` is cut from the source rectangle with
top-left corner `(col*floor(W/c), row*floor(H/r))` and size
`floor(W/c) × floor(H/r)`; distinct tiles have disjoint source regions and
together they exactly cover `[0, c*floor(W/c)) × [0, r*floor(H/r))`. -/
theorem divideImage_regions (img : SourceImage) (pattern : String) (dpi : Nat)
    (parts : List PartInfo) (h : divideImage (some img) pattern dpi = .ok parts) :
    (∀ p ∈ parts,
        p.sourceX = p.col * (img.width / (getGridDimensions pattern).cols) ∧
        p.sourceY = p.row * (img.height / (getGridDimensions pattern).rows) ∧
        p.width = img.width / (getGridDimensions pattern).cols ∧
        p.height = img.height / (getGridDimensions pattern).rows) ∧
    (∀ i j (hi : i < parts.length) (hj : j < parts.length), i ≠ j →
        region (parts.get ⟨i, hi⟩) ∩ region (parts.get ⟨j, hj⟩) = ∅) ∧
    (⋃ p ∈ parts, region p) =
      {q : Nat × Nat |
        q.1 < (getGridDimensions pattern).cols * (img.width / (getGridDimensions pattern).cols) ∧
        q.2 < (getGridDimensions pattern).rows * (img.height / (getGridDimensions pattern).rows)} := by
  have hc := (getGridDimensions_pos pattern).2
  have hparts : parts = buildParts img.width img.height pattern dpi := by
    simpa [divideImage] using h.symm
  subst hparts
  rw [buildParts_eq]
  refine ⟨?_, ?_, ?_⟩
  · intro p hp
    simp only [List.mem_map] at hp
    obtain ⟨k, _, rfl⟩ := hp
    exact ⟨rfl, rfl, rfl, rfl⟩
  · intro i j hi hj hij
    simp only [List.length_map, List.length_range] at hi hj
    simp only [List.get_eq_getElem, List.getElem_map, List.getElem_range]
    apply Set.eq_empty_iff_forall_not_mem.mpr
    rintro ⟨x, y⟩ ⟨hqi, hqj⟩
    simp only [region, Set.mem_setOf_eq] at hqi hqj
    obtain ⟨hix1, hix2, hiy1, hiy2⟩ := hqi
    obtain ⟨hjx1, hjx2, hjy1, hjy2⟩ := hqj
    have hcol : i % (getGridDimensions pattern).cols = j % (getGridDimensions pattern).cols :=
      slot_eq hix1 hix2 hjx1 hjx2
    have hrow : i / (getGridDimensions pattern).cols = j / (getGridDimensions pattern).cols :=
      slot_eq hiy1 hiy2 hjy1 hjy2
    have di : i / (getGridDimensions pattern).cols * (getGridDimensions pattern).cols
        + i % (getGridDimensions pattern).cols = i := Nat.div_add_mod' i _
    have dj : j / (getGridDimensions pattern).cols * (getGridDimensions pattern).cols
        + j % (getGridDimensions pattern).cols = j := Nat.div_add_mod' j _
    exact hij (by rw [← di, ← dj, hcol, hrow])
  · apply Set.ext
    rintro ⟨x, y⟩
    simp only [Set.mem_iUnion, Set.mem_setOf_eq, List.mem_map, List.mem_range,
      region, exists_exists_and_eq_and]
    constructor
    · rintro ⟨p, ⟨k, hk, rfl⟩, hx1, hx2, hy1, hy2⟩
      dsimp only at hx1 hx2 hy1 hy2
      have hcolk : k % (getGridDimensions pattern).cols < (getGridDimensions pattern).cols :=
        Nat.mod_lt k hc
      have hrowk : k / (getGridDimensions pattern).cols < (getGridDimensions pattern).rows :=
        (Nat.div_lt_iff_lt_mul hc).mpr hk
      have hbx : (k % (getGridDimensions pattern).cols + 1)
          * (img.width / (getGridDimensions pattern).cols) ≤
          (getGridDimensions pattern).cols * (img.width / (getGridDimensions pattern).cols) :=
        Nat.mul_le_mul_right _ (Nat.succ_le_of_lt hcolk)
      have hby : (k / (getGridDimensions pattern).cols + 1)
          * (img.height / (getGridDimensions pattern).rows) ≤
          (getGridDimensions pattern).rows * (img.height / (getGridDimensions pattern).rows) :=
        Nat.mul_le_mul_right _ (Nat.succ_le_of_lt hrowk)
      rw [Nat.succ_mul] at hbx hby
      omega
    · rintro ⟨hx, hy⟩
      obtain ⟨hxc, hx1, hx2⟩ := mem_own_slot hx
      obtain ⟨hyr, hy1, hy2⟩ := mem_own_slot hy
      refine ⟨_, ⟨(y / (img.height / (getGridDimensions pattern).rows))
          * (getGridDimensions pattern).cols
          + x / (img.width / (getGridDimensions pattern).cols), ?_, rfl⟩, ?_⟩
      · have hs : (y / (img.height / (getGridDimensions pattern).rows) + 1)
            * (getGridDimensions pattern).cols ≤
            (getGridDimensions pattern).rows * (getGridDimensions pattern).cols :=
          Nat.mul_le_mul_right _ (Nat.succ_le_of_lt hyr)
        rw [Nat.succ_mul] at hs
        omega
      · have hmod : ((y / (img.height / (getGridDimensions pattern).rows))
            * (getGridDimensions pattern).cols
            + x / (img.width / (getGridDimensions pattern).cols))
            % (getGridDimensions pattern).cols
            = x / (img.width / (getGridDimensions pattern).cols) := by
          rw [Nat.add_comm, Nat.add_mul_mod_self_right, Nat.mod_eq_of_lt hxc]
        have hdiv : ((y / (img.height / (getGridDimensions pattern).rows))
            * (getGridDimensions pattern).cols
            + x / (img.width / (getGridDimensions pattern).cols))
            / (getGridDimensions pattern).cols
            = y / (img.height / (getGridDimensions pattern).rows) := by
          rw [Nat.add_comm, Nat.add_mul_div_right _ _ hc, Nat.div_eq_of_lt hxc,
            Nat.zero_add]
        dsimp only
        rw [hmod, hdiv]
        exact ⟨hx1, hx2, hy1, hy2⟩

/-- Witness for C10 at a 1000×700 image and the `A4_2x2` pattern. -/
theorem divideImage_regions_witness :
    (∀ p ∈ buildParts 1000 700 "A4_2x2" 300,
        p.sourceX = p.col * 500 ∧ p.sourceY = p.row * 350 ∧
        p.width = 500 ∧ p.height = 350) ∧
    (⋃ p ∈ buildParts 1000 700 "A4_2x2" 300, region p) =
      {q : Nat × Nat | q.1 < 1000 ∧ q.2 < 700} := by
  have h := divideImage_regions ⟨1000, 700⟩ "A4_2x2" 300
    (buildParts 1000 700 "A4_2x2" 300) rfl
  have e : getGridDimensions "A4_2x2" = ⟨2, 2, "A4"⟩ := by decide
  constructor
  · intro p hp
    have := h.1 p hp
    rw [e] at this
    exact this
  · have := h.2.2
    rw [e] at this
    exact this

/-! ## Constants (src/utils/constants.js) and the PDF generator
(src/modules/pdfGenerator.js).  PDF layout arithmetic uses JS doubles only
through `+ - * / min`, modelled with `ℚ` (the spec's invariants are stated
"within floating-point tolerance"; over `ℚ` they are exact). -/

/-- One entry of `PAPER_SIZES` (src/utils/constants.js lines 3-18):
millimetre size and the fixed pixel equivalents, which the source comments
mark as "px a 300 DPI". -/
structure Paper where
  widthMm : Nat
  heightMm : Nat
  widthPx : Nat
  heightPx : Nat
deriving Repr, DecidableEq

/-- `PAPER_SIZES` lookup: `A4` and `A3` only; any other key is absent
(`undefined` in JS). -/
def PAPER_SIZES (id : String) : Option Paper :=
  if id = "A4" then some ⟨210, 297, 2480, 3508⟩
  else if id = "A3" then some ⟨297, 420, 3508, 4961⟩
  else none

/-- One entry of `DIVISION_PATTERNS` (src/utils/constants.js lines
26-96).  Entries without a `landscape` key behave as `landscape = false`
(the only read is `pattern.landscape === true`). -/
structure DivisionPattern where
  rows : Nat
  cols : Nat
  paperSize : String
  landscape : Bool
deriving Repr, DecidableEq

/-- `DIVISION_PATTERNS` (src/utils/constants.js lines 26-96): the full
nine-entry table, including the `_H` landscape variants. -/
def DIVISION_PATTERNS (id : String) : Option DivisionPattern :=
  if id = "A4_2x1" then some ⟨2, 1, "A4", false⟩
  else if id = "A4_1x2" then some ⟨1, 2, "A4", false⟩
  else if id = "A4_2x2" then some ⟨2, 2, "A4", false⟩
  else if id = "A4_2x2_H" then some ⟨2, 2, "A4", true⟩
  else if id = "A3_SINGLE" then some ⟨1, 1, "A3", false⟩
  else if id = "A3_2x1" then some ⟨2, 1, "A3", false⟩
  else if id = "A3_1x2" then some ⟨1, 2, "A3", false⟩
  else if id = "A3_2x2" then some ⟨2, 2, "A3", false⟩
  else if id = "A3_2x2_H" then some ⟨2, 2, "A3", true⟩
  else none

/-- `convertMmToPx(mm, dpi) = Math.round(mm*dpi/25.4)`
(src/utils/constants.js lines 123-125).  For nonnegative arguments
`Math.round(a/b)` is `floor(a/b + 1/2) = (2a + b) / (2b)` in `Nat`
division; with `a = mm*dpi*10`, `b = 254` this is
`(20*mm*dpi + 254) / 508`. -/
def convertMmToPx (mm dpi : Nat) : Nat :=
  (20 * mm * dpi + 254) / 508

/-- Result of `PDFGenerator.addImageToPage`
(src/modules/pdfGenerator.js lines 100-125): drawn position and size.
`margins * 1.2` is written `margins * (6/5)`. -/
structure Placement where
  x : ℚ
  y : ℚ
  width : ℚ
  height : ℚ
deriving Repr, DecidableEq

/-- `PDFGenerator.addImageToPage(page, image, dimensions, margins)`
(src/modules/pdfGenerator.js lines 100-125):
`maxW = pageWidth - margins*1.2`, `maxH = pageHeight - margins*1.2`,
`scale = min(maxW/w, maxH/h)`, final size `w*scale × h*scale`, drawn at
`((pageWidth-finalW)/2, (pageHeight-finalH)/2)`. -/
def addImageToPage (pageWidth pageHeight w h margins : ℚ) : Placement :=
  let maxWidth := pageWidth - margins * (6/5)
  let maxHeight := pageHeight - margins * (6/5)
  let scale := min (maxWidth / w) (maxHeight / h)
  { x := (pageWidth - w * scale) / 2
    y := (pageHeight - h * scale) / 2
    width := w * scale
    height := h * scale }

/-- A straight cut-guide segment: start and end points. -/
abbrev Segment : Type := (ℚ × ℚ) × (ℚ × ℚ)

/-- `PDFGenerator.addCuttingGuides(page, margins)`
(src/modules/pdfGenerator.js lines 132-165): the four `page.drawLine`
calls actually executed.  The source ends with the comment
"Esquinas inferiores similares..." and draws nothing for the remaining
corners. -/
def addCuttingGuides (pageWidth pageHeight margins : ℚ) : List Segment :=
  [ ((margins, margins), (margins + 15, margins)),
    ((margins, margins), (margins, margins + 15)),
    ((pageWidth - margins - 15, margins), (pageWidth - margins, margins)),
    ((pageWidth - margins, margins), (pageWidth - margins, margins + 15)) ]

/-- A drawn text label: string, position, font size. -/
structure TextLabel where
  text : String
  x : ℚ
  y : ℚ
  size : ℚ
deriving Repr, DecidableEq

/-- The page-number string drawn by `PDFGenerator.addPageNumber`
(src/modules/pdfGenerator.js line 175): `Página ${current} de ${total}`. -/
def pageNumberText (current total : Nat) : String :=
  "Página " ++ toString current ++ " de " ++ toString total

/-- `PDFGenerator.addPageNumber(page, font, current, total)`
(src/modules/pdfGenerator.js lines 174-186).  `textWidth` is
`font.widthOfTextAtSize(text, 10)`, supplied by the font model. -/
def addPageNumber (pageWidth textWidth : ℚ) (current total : Nat) : TextLabel :=
  { text := pageNumberText current total
    x := pageWidth - textWidth - 30
    y := 20
    size := 10 }

/-- The part-info string drawn by `PDFGenerator.addPartInfo`
(src/modules/pdfGenerator.js lines 196-198):
`Posición: Fila ${row+1}, Columna ${col+1} | ${paperSize} | ${dpi} DPI`. -/
def partInfoText (p : PartInfo) : String :=
  "Posición: Fila " ++ toString (p.row + 1) ++ ", Columna " ++ toString (p.col + 1)
    ++ " | " ++ p.paperSize ++ " | " ++ toString p.dpi ++ " DPI"

/-- `PDFGenerator.addPartInfo(page, font, part)`
(src/modules/pdfGenerator.js lines 194-207). -/
def addPartInfo (pageHeight : ℚ) (p : PartInfo) : TextLabel :=
  { text := partInfoText p
    x := 30
    y := pageHeight - 20
    size := 10 }

/-- `pattern && pattern.landscape === true`
(src/modules/pdfGenerator.js line 45). -/
def patternLandscape (pattern : Option DivisionPattern) : Bool :=
  match pattern with
  | some p => p.landscape
  | none => false

/-- One PDF page as composed by `generatePDF`: its size, the image
placement, the cut guides and the labels drawn on it. -/
structure Page where
  width : ℚ
  height : ℚ
  image : Placement
  guides : List Segment
  pageLabel : Option TextLabel
  partLabel : TextLabel
deriving DecidableEq

/-- `PDFGenerator.generatePDF(imageParts, options)`
(src/modules/pdfGenerator.js lines 30-80).  `widthOfText` models
`font.widthOfTextAtSize(text, 10)`.  Page size comes from the *fixed*
`PAPER_SIZES[paperSize].widthPx/heightPx` constants, swapped when
`pattern && pattern.landscape === true`; any thrown error (for example the
`TypeError` from an unknown `paperSize` key) is re-thrown as
`Error al generar PDF: ...`. -/
def generatePDF (widthOfText : String → ℚ) (imageParts : List PartInfo)
    (paperSize : String) (pattern : Option DivisionPattern) (margins : ℚ)
    (addGuides addPageNumbers : Bool) : Except String (List Page) :=
  match PAPER_SIZES paperSize with
  | none => .error "Error al generar PDF"
  | some paper =>
    let pageWidth : ℚ := if patternLandscape pattern then paper.heightPx else paper.widthPx
    let pageHeight : ℚ := if patternLandscape pattern then paper.widthPx else paper.heightPx
    .ok <| imageParts.enum.map fun ip =>
      { width := pageWidth
        height := pageHeight
        image := addImageToPage pageWidth pageHeight ip.2.width ip.2.height margins
        guides := if addGuides then addCuttingGuides pageWidth pageHeight margins else []
        pageLabel := if addPageNumbers then
            some (addPageNumber pageWidth
              (widthOfText (pageNumberText (ip.1 + 1) imageParts.length))
              (ip.1 + 1) imageParts.length)
          else none
        partLabel := addPartInfo pageHeight ip.2 }

/-! ## Page-size claims (C3). -/

/-- C3 counterexample: with export DPI 150 chosen (the app passes
`currentDpi` to `divideImage`, here 150), the generated A4 pages are
2480 px wide — the fixed 300-DPI constant — while the paper's
pixel-equivalent width at the chosen DPI is `convertMmToPx 210 150 =
1240`. -/
theorem generatePDF_pageDims_counterexample :
    ((generatePDF (fun _ => 100) (buildParts 1000 700 "A4_2x2" 150) "A4"
        (DIVISION_PATTERNS "A4_2x2") 8 true true).toOption.map
      (fun pages => pages.map Page.width)) = some (List.replicate 4 (2480 : ℚ)) ∧
    convertMmToPx 210 150 = 1240 ∧ (2480 : ℚ) ≠ 1240 := by
  refine ⟨by decide, by decide, by norm_num⟩

/-- C3 (amended): every page's pixel dimensions equal the paper's *fixed*
`widthPx`/`heightPx` constants — its pixel equivalents at 300 DPI —
swapped when the pattern's landscape flag is set; the chosen export DPI
never enters `generatePDF`. -/
theorem generatePDF_pageDims (f : String → ℚ) (parts : List PartInfo)
    (paperSize : String) (paper : Paper) (hp : PAPER_SIZES paperSize = some paper)
    (pattern : Option DivisionPattern) (margins : ℚ) (g n : Bool)
    (pages : List Page)
    (h : generatePDF f parts paperSize pattern margins g n = .ok pages) :
    pages.map (fun pg => (pg.width, pg.height)) =
      List.replicate parts.length
        (((if patternLandscape pattern then paper.heightPx else paper.widthPx : Nat) : ℚ),
         ((if patternLandscape pattern then paper.widthPx else paper.heightPx : Nat) : ℚ)) ∧
    paper.widthPx = convertMmToPx paper.widthMm 300 ∧
    paper.heightPx = convertMmToPx paper.heightMm 300 := by
  constructor
  · simp only [generatePDF, hp] at h
    injection h with h
    subst h
    simp [List.map_map, List.eq_replicate_iff, Function.comp, List.mem_map,
      List.enum_length]
    intro a b x p _ ha hb
    exact ⟨ha.symm, hb.symm⟩
  · unfold PAPER_SIZES at hp
    split at hp
    · cases hp; exact ⟨by decide, by decide⟩
    · split at hp
      · cases hp; exact ⟨by decide, by decide⟩
      · cases hp

/-- Witness for the amended C3: a four-tile A4 portrait export yields
four 2480×3508 pages, and those constants are the 300-DPI pixel
equivalents of 210 mm and 297 mm. -/
theorem generatePDF_pageDims_witness :
    (((generatePDF (fun _ => 100) (buildParts 1000 700 "A4_2x2" 300) "A4"
        (DIVISION_PATTERNS "A4_2x2") 8 true true).toOption.getD []).map
      (fun pg => (pg.width, pg.height)) =
      List.replicate 4 ((2480 : ℚ), (3508 : ℚ))) ∧
    convertMmToPx 210 300 = 2480 ∧ convertMmToPx 297 300 = 3508 := by
  have h := generatePDF_pageDims (fun _ => 100) (buildParts 1000 700 "A4_2x2" 300)
    "A4" ⟨210, 297, 2480, 3508⟩ rfl (DIVISION_PATTERNS "A4_2x2") 8 true true
    ((generatePDF (fun _ => 100) (buildParts 1000 700 "A4_2x2" 300) "A4"
        (DIVISION_PATTERNS "A4_2x2") 8 true true).toOption.getD []) rfl
  exact ⟨h.1.trans (by decide), h.2.1.symm, h.2.2.symm⟩

/-! ## Pattern-table claims (C4, C8). -/

/-- C4 (code bug): the full pattern table `DIVISION_PATTERNS` maps
`A3_2x2_H` to paper A3, but the local table inside `getGridDimensions`
lacks the `_H` keys, so `divideImage` silently falls back to the `A4_2x2`
default and stamps every tile of an `A3_2x2_H` export with paper `A4`. -/
theorem divideImage_A3_2x2_H_mismatch :
    (DIVISION_PATTERNS "A3_2x2_H").map (fun p => p.paperSize) = some "A3" ∧
    getGridDimensions "A3_2x2_H" = getGridDimensions "A4_2x2" ∧
    (divideImage (some ⟨1000, 700⟩) "A3_2x2_H" 300).toOption.map
      (fun parts => parts.map PartInfo.paperSize) = some ["A4", "A4", "A4", "A4"] := by
  exact ⟨by decide, by decide, by decide⟩

/-- C8: an unknown pattern id never raises: `getGridDimensions`
substitutes the default `A4_2x2` grid (rows=2, cols=2, paper A4) and
`divideImage` partitions normally, exactly as for `A4_2x2`. -/
theorem divideImage_unknown_pattern (img : SourceImage) (pattern : String) (dpi : Nat)
    (h1 : pattern ≠ "A4_2x1") (h2 : pattern ≠ "A4_1x2") (h3 : pattern ≠ "A4_2x2")
    (h4 : pattern ≠ "A3_SINGLE") (h5 : pattern ≠ "A3_2x1") (h6 : pattern ≠ "A3_1x2")
    (h7 : pattern ≠ "A3_2x2") :
    getGridDimensions pattern = ⟨2, 2, "A4"⟩ ∧
    divideImage (some img) pattern dpi =
      divideImage (some img) "A4_2x2" dpi ∧
    divideImage (some img) pattern dpi =
      .ok (buildParts img.width img.height "A4_2x2" dpi) := by
  have hg : getGridDimensions pattern = ⟨2, 2, "A4"⟩ := by
    unfold getGridDimensions
    simp [h1, h2, h3, h4, h5, h6, h7]
  have hb : buildParts img.width img.height pattern dpi =
      buildParts img.width img.height "A4_2x2" dpi := by
    unfold buildParts
    rw [hg]
    rfl
  exact ⟨hg, by simp [divideImage, hb], by simp [divideImage, hb]⟩

/-- Witness for C8 at the unknown id `FOO`. -/
theorem divideImage_unknown_pattern_witness :
    ("FOO" ≠ "A4_2x1") ∧
    (getGridDimensions "FOO" = ⟨2, 2, "A4"⟩ ∧
      divideImage (some ⟨1000, 700⟩) "FOO" 300 =
        divideImage (some ⟨1000, 700⟩) "A4_2x2" 300 ∧
      divideImage (some ⟨1000, 700⟩) "FOO" 300 =
        .ok (buildParts 1000 700 "A4_2x2" 300)) :=
  ⟨by decide,
   divideImage_unknown_pattern ⟨1000, 700⟩ "FOO" 300 (by decide) (by decide)
     (by decide) (by decide) (by decide) (by decide) (by decide)⟩

/-! ## Image placement claims (C5, C6). -/

/-- C5: `addImageToPage` scales uniformly into the usable area
`(pageWidth - margins*1.2) × (pageHeight - margins*1.2)`: the aspect ratio
is preserved exactly and the final size fits the usable area. -/
theorem addImageToPage_scale (pageWidth pageHeight w h margins : ℚ)
    (hw : 0 < w) (hh : 0 < h) (hW : margins * (6/5) < pageWidth)
    (hH : margins * (6/5) < pageHeight) :
    (addImageToPage pageWidth pageHeight w h margins).width /
        (addImageToPage pageWidth pageHeight w h margins).height = w / h ∧
    (addImageToPage pageWidth pageHeight w h margins).width ≤
        pageWidth - margins * (6/5) ∧
    (addImageToPage pageWidth pageHeight w h margins).height ≤
        pageHeight - margins * (6/5) := by
  have hmw : (0:ℚ) < pageWidth - margins * (6/5) := by linarith
  have hmh : (0:ℚ) < pageHeight - margins * (6/5) := by linarith
  have hs : 0 < min ((pageWidth - margins * (6/5)) / w)
      ((pageHeight - margins * (6/5)) / h) :=
    lt_min (div_pos hmw hw) (div_pos hmh hh)
  simp only [addImageToPage]
  refine ⟨?_, ?_, ?_⟩
  · rw [mul_comm w, mul_comm h, mul_div_mul_left _ _ (ne_of_gt hs)]
  · calc w * min ((pageWidth - margins * (6/5)) / w)
          ((pageHeight - margins * (6/5)) / h)
        ≤ w * ((pageWidth - margins * (6/5)) / w) :=
          mul_le_mul_of_nonneg_left (min_le_left _ _) (le_of_lt hw)
      _ = pageWidth - margins * (6/5) := by
          rw [mul_comm w, div_mul_cancel₀ _ (ne_of_gt hw)]
  · calc h * min ((pageWidth - margins * (6/5)) / w)
          ((pageHeight - margins * (6/5)) / h)
        ≤ h * ((pageHeight - margins * (6/5)) / h) :=
          mul_le_mul_of_nonneg_left (min_le_right _ _) (le_of_lt hh)
      _ = pageHeight - margins * (6/5) := by
          rw [mul_comm h, div_mul_cancel₀ _ (ne_of_gt hh)]

/-- Witness for C5 on an A4 portrait page with a 500×350 tile and the
app's margin of 8. -/
theorem addImageToPage_scale_witness :
    ((0:ℚ) < 500) ∧ ((0:ℚ) < 350) ∧ ((8:ℚ) * (6/5) < 2480) ∧
    ((8:ℚ) * (6/5) < 3508) ∧
    ((addImageToPage 2480 3508 500 350 8).width /
        (addImageToPage 2480 3508 500 350 8).height = 500 / 350 ∧
      (addImageToPage 2480 3508 500 350 8).width ≤ 2480 - 8 * (6/5) ∧
      (addImageToPage 2480 3508 500 350 8).height ≤ 3508 - 8 * (6/5)) :=
  ⟨by norm_num, by norm_num, by norm_num, by norm_num,
   addImageToPage_scale 2480 3508 500 350 8 (by norm_num) (by norm_num)
     (by norm_num) (by norm_num)⟩

/-- C6: the image is always centered: `x + finalWidth/2 = pageWidth/2` and
`y + finalHeight/2 = pageHeight/2`, for every margin value — the margin is
not an offset, it only bounds the maximum size through the scale factor. -/
theorem addImageToPage_centered (pageWidth pageHeight w h margins : ℚ) :
    (addImageToPage pageWidth pageHeight w h margins).x
        + (addImageToPage pageWidth pageHeight w h margins).width / 2
      = pageWidth / 2 ∧
    (addImageToPage pageWidth pageHeight w h margins).y
        + (addImageToPage pageWidth pageHeight w h margins).height / 2
      = pageHeight / 2 := by
  simp only [addImageToPage]
  constructor <;> ring

/-! ## Cut-guide claim (C7). -/

/-- C7 (code bug): on an A4 portrait page with margin 8,
`addCuttingGuides` draws only 4 segments — the two L-marks at the two
corners on the `y = margins` edge (every endpoint has `y ≤ 23`); the two
corners at the opposite edge (`y = 3508 - 8`) get no mark at all, although
each drawn segment does have length 15 and sits `margins` in from the
edges.  The claimed four-corner output would be 8 segments. -/
theorem addCuttingGuides_only_two_corners :
    (addCuttingGuides 2480 3508 8).length = 4 ∧
    (∀ s ∈ addCuttingGuides 2480 3508 8,
      s.1.2 ≤ 23 ∧ s.2.2 ≤ 23 ∧
      (s.2.1 - s.1.1) + (s.2.2 - s.1.2) = 15) := by
  refine ⟨rfl, ?_⟩
  intro s hs
  simp only [addCuttingGuides, List.mem_cons, List.not_mem_nil, or_false] at hs
  rcases hs with rfl | rfl | rfl | rfl <;> norm_num

/-! ## Label claims (C9). -/

/-- C9 counterexample: the drawn page-number text is the Spanish
`Página 1 de 4`, not `Page 1 of 4`; likewise the part-info text starts
`Posición: Fila ...`, not `Position: Row ...`. -/
theorem pageNumberText_not_english :
    pageNumberText 1 4 = "Página 1 de 4" ∧
    pageNumberText 1 4 ≠ "Page 1 of 4" ∧
    partInfoText ⟨0, 0, 500, 350, 0, 0, "A4", 300, 1, 4⟩ ≠
      "Position: Row 1, Column 1 | A4 | 300 DPI" ∧
    partInfoText ⟨0, 0, 500, 350, 0, 0, "A4", 300, 1, 4⟩ =
      "Posición: Fila 1, Columna 1 | A4 | 300 DPI" := by
  refine ⟨by decide, by decide, by decide, by decide⟩

/-- C9 (amended): with page numbers enabled, page `i` (0-based) carries a
page-number label with Spanish text `Página {i+1} de {total}`,
right-aligned 30 units in from the right edge (`x + textWidth =
pageWidth - 30`), 20 units up from the bottom, at fixed size 10; and a
part-info label `Posición: Fila {row+1}, Columna {col+1} | {paper} |
{dpi} DPI` at `x = 30`, 20 units down from the top edge, size 10 — both
1-based, in emission (`partNumber`) order. -/
theorem generatePDF_labels (f : String → ℚ) (parts : List PartInfo)
    (paperSize : String) (paper : Paper) (hp : PAPER_SIZES paperSize = some paper)
    (pattern : Option DivisionPattern) (margins : ℚ) (g : Bool)
    (pages : List Page)
    (h : generatePDF f parts paperSize pattern margins g true = .ok pages) :
    pages.length = parts.length ∧
    ∀ i (hi : i < pages.length) (hi' : i < parts.length),
      (pages.get ⟨i, hi⟩).pageLabel =
        some { text := "Página " ++ toString (i + 1) ++ " de " ++ toString parts.length
               x := (pages.get ⟨i, hi⟩).width - f (pageNumberText (i + 1) parts.length) - 30
               y := 20
               size := 10 } ∧
      (pages.get ⟨i, hi⟩).partLabel =
        { text := "Posición: Fila " ++ toString ((parts.get ⟨i, hi'⟩).row + 1)
              ++ ", Columna " ++ toString ((parts.get ⟨i, hi'⟩).col + 1)
              ++ " | " ++ (parts.get ⟨i, hi'⟩).paperSize
              ++ " | " ++ toString (parts.get ⟨i, hi'⟩).dpi ++ " DPI"
          x := 30
          y := (pages.get ⟨i, hi⟩).height - 20
          size := 10 } := by
  simp only [generatePDF, hp] at h
  injection h with h
  subst h
  refine ⟨by simp [List.enum_length], ?_⟩
  intro i hi hi'
  simp only [List.get_eq_getElem, List.getElem_map, List.getElem_enum]
  constructor
  · simp [addPageNumber, pageNumberText]
  · simp [addPartInfo, partInfoText]

/-- Witness for the amended C9: the 4-tile `A4_2x2` export at 300 DPI. -/
theorem generatePDF_labels_witness :
    (((generatePDF (fun _ => 100) (buildParts 1000 700 "A4_2x2" 300) "A4"
        (DIVISION_PATTERNS "A4_2x2") 8 true true).toOption.getD []).length
      = (buildParts 1000 700 "A4_2x2" 300).length) ∧
    ∀ i (hi : i < ((generatePDF (fun _ => 100) (buildParts 1000 700 "A4_2x2" 300)
          "A4" (DIVISION_PATTERNS "A4_2x2") 8 true true).toOption.getD []).length)
        (hi' : i < (buildParts 1000 700 "A4_2x2" 300).length),
      (((generatePDF (fun _ => 100) (buildParts 1000 700 "A4_2x2" 300) "A4"
          (DIVISION_PATTERNS "A4_2x2") 8 true true).toOption.getD []).get
            ⟨i, hi⟩).pageLabel =
        some { text := "Página " ++ toString (i + 1) ++ " de "
                ++ toString (buildParts 1000 700 "A4_2x2" 300).length
               x := (((generatePDF (fun _ => 100) (buildParts 1000 700 "A4_2x2" 300)
                  "A4" (DIVISION_PATTERNS "A4_2x2") 8 true true).toOption.getD []).get
                    ⟨i, hi⟩).width
                 - (fun _ => (100 : ℚ))
                     (pageNumberText (i + 1) (buildParts 1000 700 "A4_2x2" 300).length)
                 - 30
               y := 20
               size := 10 } ∧
      (((generatePDF (fun _ => 100) (buildParts 1000 700 "A4_2x2" 300) "A4"
          (DIVISION_PATTERNS "A4_2x2") 8 true true).toOption.getD []).get
            ⟨i, hi⟩).partLabel =
        { text := "Posición: Fila "
              ++ toString (((buildParts 1000 700 "A4_2x2" 300).get ⟨i, hi'⟩).row + 1)
              ++ ", Columna "
              ++ toString (((buildParts 1000 700 "A4_2x2" 300).get ⟨i, hi'⟩).col + 1)
              ++ " | " ++ ((buildParts 1000 700 "A4_2x2" 300).get ⟨i, hi'⟩).paperSize
              ++ " | " ++ toString ((buildParts 1000 700 "A4_2x2" 300).get ⟨i, hi'⟩).dpi
              ++ " DPI"
          x := 30
          y := (((generatePDF (fun _ => 100) (buildParts 1000 700 "A4_2x2" 300) "A4"
              (DIVISION_PATTERNS "A4_2x2") 8 true true).toOption.getD []).get
                ⟨i, hi⟩).height - 20
          size := 10 } :=
  generatePDF_labels (fun _ => 100) (buildParts 1000 700 "A4_2x2" 300) "A4"
    ⟨210, 297, 2480, 3508⟩ rfl (DIVISION_PATTERNS "A4_2x2") 8 true
    ((generatePDF (fun _ => 100) (buildParts 1000 700 "A4_2x2" 300) "A4"
      (DIVISION_PATTERNS "A4_2x2") 8 true true).toOption.getD []) rfl

end ImagenPrinter
